import Mathlib

/-!
# Verification of the ts-cpp-bridge schema extraction and C++ emission pipeline

This file is a shallow embedding of the core of the `ts-cpp-bridge` code
generator (`src/generator.ts`, `src/numeric-types.ts`) in Lean 4, together
with theorems settling the specification claims about it.

The embedding has three layers:
1. executable models of the JavaScript string primitives the generator uses
   (`includes`, `startsWith`, `slice`, `replace`, `split`, `trim`,
   `toLowerCase`), written by structural recursion on character lists so that
   all definitions evaluate by `decide` / `rfl`;
2. the generator itself: the type-mapping tables of `numeric-types.ts`, the
   AST-level parse functions (`parseField`, `parseStruct`, `parseExports`,
   `parseExportMethod`, `parseFiles`) and the emission functions
   (struct header/implementation, N-API wrapper, TypeScript wrappers),
   the per-field emission decisions being captured structurally;
3. a semantics for the *emitted* marshalling code (`FromNapi` / `ToNapi`
   bodies and the synchronous N-API wrapper), interpreting the structurally
   captured emission over a model of N-API boundary values.
-/

set_option maxRecDepth 4000

namespace TsCppBridge

/-! ## JavaScript string primitives, modelled on character lists -/

/-- Does the list start with the given pattern (JS `String.prototype.startsWith`)? -/
def startsWithL : List Char → List Char → Bool
  | _, [] => true
  | [], _ :: _ => false
  | a :: as, b :: bs => a = b && startsWithL as bs

/-- Does the list contain the given pattern as a contiguous sublist
(JS `String.prototype.includes`)? -/
def hasSub : List Char → List Char → Bool
  | [], pat => startsWithL [] pat
  | s@(_ :: rest), pat => startsWithL s pat || hasSub rest pat

/-- JS `s.includes(sub)`. -/
def jsIncludes (s sub : String) : Bool := hasSub s.data sub.data

/-- JS `s.startsWith(pat)`. -/
def jsStartsWith (s pat : String) : Bool := startsWithL s.data pat.data

/-- JS `s.endsWith(pat)`. -/
def jsEndsWith (s pat : String) : Bool := startsWithL s.data.reverse pat.data.reverse

/-- Drop the last `n` characters. -/
def dropRightL (l : List Char) (n : Nat) : List Char := l.take (l.length - n)

/-- JS `s.slice(a, -b)` for `a, b ≥ 0`: drop `a` characters at the front and
`b` characters at the back. -/
def jsSlice (s : String) (a b : Nat) : String := ⟨dropRightL (s.data.drop a) b⟩

/-- Replace the first occurrence of `pat` (JS `String.prototype.replace` with a
string pattern replaces only the first occurrence). -/
def replaceFirstL : List Char → List Char → List Char → List Char
  | [], _, _ => []
  | s@(c :: rest), pat, repl =>
    if startsWithL s pat then repl ++ s.drop pat.length
    else c :: replaceFirstL rest pat repl

/-- JS `s.replace(pat, repl)` with a plain-string pattern. -/
def jsReplaceFirst (s pat repl : String) : String :=
  if pat.data.isEmpty then ⟨repl.data ++ s.data⟩
  else ⟨replaceFirstL s.data pat.data repl.data⟩

/-- JS `s.split(sep)` for a one-character separator, on character lists. -/
def splitOnCharL (sep : Char) : List Char → List (List Char)
  | [] => [[]]
  | c :: rest =>
    let r := splitOnCharL sep rest
    if c = sep then [] :: r
    else
      match r with
      | [] => [[c]]
      | h :: t => (c :: h) :: t

/-- ASCII whitespace, the fragment of JS `\s` relevant to type annotations. -/
def isWsChar (c : Char) : Bool := c = ' ' || c = '\t' || c = '\n' || c = '\r'

/-- JS `s.trim()` on character lists. -/
def trimL (l : List Char) : List Char :=
  ((l.dropWhile isWsChar).reverse.dropWhile isWsChar).reverse

/-- ASCII lower-casing of one character, the behaviour of JS `toLowerCase`
on the identifiers this generator handles. -/
def lowerChar (c : Char) : Char :=
  if 65 ≤ c.toNat ∧ c.toNat ≤ 90 then Char.ofNat (c.toNat + 32) else c

/-- JS `s.toLowerCase()` (ASCII fragment). -/
def toLowerCaseStr (s : String) : String := ⟨s.data.map lowerChar⟩

/-- Lexicographic comparison on UTF-16-style code points, the default JS
`Array.prototype.sort` comparator restricted to the BMP strings used here. -/
def strLeL : List Char → List Char → Bool
  | [], _ => true
  | _ :: _, [] => false
  | a :: as, b :: bs =>
    if a.toNat < b.toNat then true
    else if b.toNat < a.toNat then false
    else strLeL as bs

/-- String comparison used to model the default JS sort. -/
def jsStrLe (a b : String) : Bool := strLeL a.data b.data

/-- Insertion into a sorted list (stable). -/
def insertSorted (x : String) : List String → List String
  | [] => [x]
  | y :: ys => if jsStrLe x y then x :: y :: ys else y :: insertSorted x ys

/-- Model of JS `Array.from(set).sort()`. -/
def sortStrings (l : List String) : List String := l.foldr insertSorted []

/-- Model of JS `Set.prototype.add`: append if not already present
(insertion order preserved). -/
def setAdd (l : List String) (x : String) : List String :=
  if l.contains x then l else l ++ [x]

/-- First-match association lookup, the model of reading a property of a
plain JS object represented as a list of key/value pairs. -/
def jsGet {β : Type} (k : String) : List (String × β) → Option β
  | [] => none
  | (k2, v) :: rest => if k2 = k then some v else jsGet k rest

/-! ## `numeric-types.ts`: the semantic-type → C++ storage-type table -/

/-- `TypeMapping` from `numeric-types.ts`: TypeScript semantic type names to
C++ storage types. -/
def TypeMapping : List (String × String) :=
  [("string", "std::string"),
   ("number", "double"),
   ("boolean", "bool"),
   ("i8", "int8_t"),
   ("u8", "uint8_t"),
   ("i16", "int16_t"),
   ("u16", "uint16_t"),
   ("i32", "int32_t"),
   ("u32", "uint32_t"),
   ("i64", "int64_t"),
   ("u64", "uint64_t"),
   ("f32", "float"),
   ("f64", "double")]

/-- `getCppType` from `numeric-types.ts`, with an explicit recursion budget.
The source recurses on strict substrings (`Set<T>`, `Map<K,V>`, `Array<T>`,
`T[]` each strip wrapper characters), so a budget of the string length always
suffices and the budget-exhausted branch is unreachable. -/
def getCppTypeF : Nat → String → String
  | 0, tsType => tsType
  | fuel + 1, tsType =>
    if jsStartsWith tsType "Set<" && jsEndsWith tsType ">" then
      let innerType := jsSlice tsType 4 1
      "std::unordered_set<" ++ getCppTypeF fuel innerType ++ ">"
    else if jsStartsWith tsType "Map<" && jsEndsWith tsType ">" then
      let innerTypes := jsSlice tsType 4 1
      let parts := (splitOnCharL ',' innerTypes.data).map (fun p => (⟨trimL p⟩ : String))
      let keyType := getCppTypeF fuel (parts.getD 0 "")
      let valueType := getCppTypeF fuel (parts.getD 1 "")
      "std::unordered_map<" ++ keyType ++ ", " ++ valueType ++ ">"
    else if jsStartsWith tsType "Array<" && jsEndsWith tsType ">" then
      let innerType := jsSlice tsType 6 1
      "std::vector<" ++ getCppTypeF fuel innerType ++ ">"
    else if jsEndsWith tsType "[]" then
      let innerType := jsSlice tsType 0 2
      "std::vector<" ++ getCppTypeF fuel innerType ++ ">"
    else
      match jsGet tsType TypeMapping with
      | some t => t
      | none => tsType

/-- `getCppType(tsType)` from `numeric-types.ts`. -/
def getCppType (tsType : String) : String := getCppTypeF tsType.data.length tsType

/-! ## Parsed IR of `generator.ts` -/

/-- `ParsedField` from `generator.ts`. -/
structure ParsedField where
  name : String
  type : String
  isArray : Bool
  isOptional : Bool
  deriving Repr, DecidableEq

/-- `ParsedStruct` from `generator.ts`. -/
structure ParsedStruct where
  name : String
  fields : List ParsedField
  deriving Repr, DecidableEq

/-- `ParsedExport` from `generator.ts` (note: it has no `isAsync` member). -/
structure ParsedExport where
  name : String
  className : String
  methodName : String
  paramType : String
  returnType : String
  isStatic : Bool
  parameters : List (String × String)
  deriving Repr, DecidableEq

/-- `ParseResult` from `generator.ts`. -/
structure ParseResult where
  structs : List ParsedStruct
  exports : List ParsedExport
  deriving Repr, DecidableEq

/-- A decorator as `ts-morph` presents it: its resolved name
(`d.getName()`) and its raw text (`d.getFullText()`). -/
structure Decorator where
  name : String
  fullText : String
  deriving Repr, DecidableEq

/-- A class property declaration: name, optional explicit type-annotation
text (`prop.getTypeNode()?.getText()`), and the `?` token. -/
structure PropertyDecl where
  name : String
  typeText : Option String
  hasQuestionToken : Bool
  deriving Repr, DecidableEq

/-- A method parameter declaration. -/
structure ParamDecl where
  name : String
  typeText : Option String
  deriving Repr, DecidableEq

/-- A class method declaration as `parseExports` consumes it. -/
structure MethodDecl where
  methodName : String
  decorators : List Decorator
  parameters : List ParamDecl
  returnTypeText : Option String
  isStatic : Bool
  deriving Repr, DecidableEq

/-- A class declaration as `parseFiles` consumes it (`getName()` can be
absent for anonymous classes). -/
structure ClassDecl where
  name : Option String
  decorators : List Decorator
  properties : List PropertyDecl
  methods : List MethodDecl
  deriving Repr, DecidableEq

/-! ## `CppGenerator` parsing -/

/-- The fixed C++ keyword list of `CppGenerator.isReservedCppKeyword`. -/
def cppKeywords : List String :=
  ["auto", "break", "case", "char", "const", "continue", "default", "do",
   "double", "else", "enum", "extern", "float", "for", "goto", "if",
   "inline", "int", "long", "register", "restrict", "return", "short",
   "signed", "sizeof", "static", "struct", "switch", "typedef", "union",
   "unsigned", "void", "volatile", "while", "bool", "catch", "class",
   "const_cast", "delete", "dynamic_cast", "explicit", "export", "false",
   "friend", "mutable", "namespace", "new", "operator", "private",
   "protected", "public", "reinterpret_cast", "static_cast", "template",
   "this", "throw", "true", "try", "typeid", "typename", "using",
   "virtual", "wchar_t"]

/-- `CppGenerator.isReservedCppKeyword`: membership of the lower-cased name
in the keyword list. -/
def isReservedCppKeyword (name : String) : Bool :=
  cppKeywords.contains (toLowerCaseStr name)

/-- `CppGenerator.sanitizeFieldName`: append one `_` when reserved,
identity otherwise. -/
def sanitizeFieldName (name : String) : String :=
  if isReservedCppKeyword name then name ++ "_" else name

/-- `CppGenerator.mapTypeScriptToCpp`: first the `numeric-types.ts` table,
then the legacy fallback `{number: int, void: void}` when the table left the
name unchanged. -/
def mapTypeScriptToCpp (tsType : String) : String :=
  let mappedType := getCppType tsType
  if mappedType = tsType then
    if tsType = "number" then "int"
    else if tsType = "void" then "void"
    else tsType
  else mappedType

/-- `CppGenerator.parseField`: fields without an explicit type annotation are
silently dropped; array-ness is derived from `[]` / `Array<...>` syntax; the
base type runs through `mapTypeScriptToCpp`. -/
def parseField (prop : PropertyDecl) : Option ParsedField :=
  match prop.typeText with
  | none => none
  | some typeText =>
    let isArr := jsIncludes typeText "[]" || jsStartsWith typeText "Array<"
    let baseType :=
      if isArr then
        if jsIncludes typeText "[]" then jsReplaceFirst typeText "[]" ""
        else if jsStartsWith typeText "Array<" then jsSlice typeText 6 1
        else typeText
      else typeText
    some { name := prop.name
           type := mapTypeScriptToCpp baseType
           isArray := isArr
           isOptional := prop.hasQuestionToken }

/-- The `@CppStruct` marker test of `CppGenerator.parseStruct`. -/
def hasCppStructDecorator (c : ClassDecl) : Bool :=
  c.decorators.any (fun d => d.name == "CppStruct" || jsIncludes d.fullText "@CppStruct")

/-- `CppGenerator.parseStruct`. -/
def parseStruct (classDecl : ClassDecl) : Option ParsedStruct :=
  if hasCppStructDecorator classDecl then
    some { name := classDecl.name.getD "UnnamedStruct"
           fields := classDecl.properties.filterMap parseField }
  else none

/-- `CppGenerator.parseExportMethod`. In the source this never returns null;
the boundary-call name is `ClassName_methodName` for static methods and the
bare method name otherwise. -/
def parseExportMethod (method : MethodDecl) (className : String) : ParsedExport :=
  let paramList := method.parameters.map
    (fun p => (p.name, mapTypeScriptToCpp (p.typeText.getD "any")))
  let paramType :=
    match method.parameters with
    | [] => "void"
    | p :: _ => mapTypeScriptToCpp (p.typeText.getD "void")
  let returnTypeStr :=
    match method.returnTypeText with
    | some t => mapTypeScriptToCpp t
    | none => "void"
  { name := if method.isStatic then className ++ "_" ++ method.methodName
            else method.methodName
    className := className
    methodName := method.methodName
    paramType := paramType
    returnType := returnTypeStr
    isStatic := method.isStatic
    parameters := paramList }

/-- The `@CppExport` marker test of `CppGenerator.parseExports`. Note that it
matches only the synchronous marker: a `@CppAsync` decorator matches neither
the name test nor the raw-text test. -/
def hasCppExportDecorator (m : MethodDecl) : Bool :=
  m.decorators.any (fun d => d.name == "CppExport" || jsIncludes d.fullText "@CppExport")

/-- `CppGenerator.parseExports`. -/
def parseExports (classDecl : ClassDecl) : List ParsedExport :=
  let className := classDecl.name.getD "UnnamedClass"
  (classDecl.methods.filter hasCppExportDecorator).map
    (fun m => parseExportMethod m className)

/-! ## Structured capture of the per-field emission decisions

`generateStructsHeader` and `generateStructsImpl` build C++ source text by
string concatenation. The records below capture, per field, exactly what
those templates interpolate: which boundary key is used, which sanitized
C++ identifier is read or written, and which extraction/construction
expression (if any) the `if`/`else if` chains over `field.type` select. -/

/-- The three N-API extraction expressions `generateStructsImpl` can emit in a
`FromNapi` body: `.As<Napi::String>().Utf8Value()`,
`.As<Napi::Number>().Int32Value()`, `.As<Napi::Boolean>().Value()`. -/
inductive Extractor where
  | utf8Value
  | int32Value
  | boolValue
  deriving Repr, DecidableEq

/-- The `field.type` dispatch of the `FromNapi` emission: only
`std::string`, `int` and `bool` select an extraction expression; every other
storage type selects none, leaving the emitted `if` (or loop) body empty. -/
def extractorFor (t : String) : Option Extractor :=
  if t = "std::string" then some .utf8Value
  else if t = "int" then some .int32Value
  else if t = "bool" then some .boolValue
  else none

/-- The three N-API value constructors `generateStructsImpl` can emit in a
`ToNapi` body: `Napi::String::New`, `Napi::Number::New`, `Napi::Boolean::New`. -/
inductive Builder where
  | stringNew
  | numberNew
  | booleanNew
  deriving Repr, DecidableEq

/-- The `field.type` dispatch of the scalar `ToNapi` emission: only
`std::string`, `int` and `bool` produce an `obj.Set(...)` call. -/
def builderFor (t : String) : Option Builder :=
  if t = "std::string" then some .stringNew
  else if t = "int" then some .numberNew
  else if t = "bool" then some .booleanNew
  else none

/-- What the emitted `FromNapi` does for one field: guard on boundary key
`key` (`obj.Has(key)`), assign to C++ member `target`, using extraction
`extract` (none = the guarded body is empty). -/
structure FromLineData where
  key : String
  target : String
  isArr : Bool
  extract : Option Extractor
  deriving Repr, DecidableEq

/-- The `FromNapi` emission decision for a field, read off
`generateStructsImpl` (guard key is the raw field name, the assignment target
is the sanitized name, the extractor comes from the `field.type` chain). -/
def fromLineOf (f : ParsedField) : FromLineData :=
  { key := f.name
    target := sanitizeFieldName f.name
    isArr := f.isArray
    extract := extractorFor f.type }

/-- What the emitted `ToNapi` does for one field: a scalar `obj.Set`, an
array `obj.Set` (fresh `Napi::Array` populated element-wise, strings via
`Napi::String::New` and everything else via `Napi::Number::New`), or no
`Set` at all when the scalar type dispatch falls through. -/
inductive ToShape where
  | scalarSet (b : Builder)
  | arraySet (elemB : Builder)
  | omitted
  deriving Repr, DecidableEq

/-- The `ToNapi` emission decision for a field: key set, C++ member read,
and shape. -/
structure ToLineData where
  key : String
  readIdent : String
  shape : ToShape
  deriving Repr, DecidableEq

/-- The `ToNapi` emission decision for a field, read off
`generateStructsImpl`. -/
def toLineOf (f : ParsedField) : ToLineData :=
  { key := f.name
    readIdent := sanitizeFieldName f.name
    shape :=
      if f.isArray then
        .arraySet (if f.type = "std::string" then .stringNew else .numberNew)
      else
        match builderFor f.type with
        | some b => .scalarSet b
        | none => .omitted }

/-- The boundary-object keys the emitted `ToNapi` of a struct sets. -/
def toNapiSetKeys (s : ParsedStruct) : List String :=
  s.fields.filterMap (fun f =>
    match (toLineOf f).shape with
    | .omitted => none
    | _ => some (toLineOf f).key)

/-- One field line of the emitted struct declaration
(`generateStructsHeader`): the C++ type text and the declared identifier. -/
structure HeaderFieldLine where
  cppType : String
  ident : String
  deriving Repr, DecidableEq

/-- The header emission decision for a field, read off
`generateStructsHeader` (array fields as `std::vector<T>`, identifier
sanitized). -/
def headerFieldLine (f : ParsedField) : HeaderFieldLine :=
  { cppType := if f.isArray then "std::vector<" ++ f.type ++ ">" else f.type
    ident := sanitizeFieldName f.name }

/-! ## Semantics of the emitted marshalling code

Boundary values (the N-API value model) and C++ storage values, plus
interpreters for the structurally captured `FromNapi` / `ToNapi` bodies. -/

/-- N-API boundary values exchanged at run time: strings, numbers (modelled
as exact rationals — the generic numeric representation), booleans, arrays. -/
inductive NapiVal where
  | nStr (s : String)
  | nNum (q : ℚ)
  | nBool (b : Bool)
  | nArr (elems : List NapiVal)
  deriving Repr

/-- C++ storage values of the generated struct fields. -/
inductive CVal where
  | vStr (s : String)
  | vInt (n : Int)
  | vBool (b : Bool)
  | vDouble (q : ℚ)
  | vArr (elems : List CVal)
  deriving Repr

/-- Truncation toward zero of a rational, the first step of the ECMAScript
`ToInt32` conversion behind `Napi::Number::Int32Value`. -/
def ratTrunc (q : ℚ) : Int := if 0 ≤ q then ⌊q⌋ else -⌊-q⌋

/-- ECMAScript `ToInt32` on a finite number: truncate, wrap modulo `2^32`
into `[-2^31, 2^31)`. -/
def toInt32 (q : ℚ) : Int := (ratTrunc q + 2 ^ 31) % 2 ^ 32 - 2 ^ 31

/-- Run one emitted extraction expression on a boundary value. A mismatched
`.As<...>` conversion fails at the N-API level, which surfaces as a thrown
C++ exception. -/
def runExtractor : Extractor → NapiVal → Except String CVal
  | .utf8Value, .nStr s => .ok (.vStr s)
  | .utf8Value, _ => .error "Napi::String conversion failed"
  | .int32Value, .nNum q => .ok (.vInt (toInt32 q))
  | .int32Value, _ => .error "Napi::Number conversion failed"
  | .boolValue, .nBool b => .ok (.vBool b)
  | .boolValue, _ => .error "Napi::Boolean conversion failed"

/-- Run one emitted value-construction expression on a C++ storage value.
`Napi::Number::New` applied to a `bool` goes through the C++ arithmetic
conversion to `0`/`1` (this happens for `bool[]` fields, whose array
elements take the `Napi::Number::New` branch). Ill-typed combinations
cannot arise from a compiling generated struct and are mapped to `0`. -/
def runBuilder : Builder → CVal → NapiVal
  | .stringNew, .vStr s => .nStr s
  | .numberNew, .vInt n => .nNum n
  | .numberNew, .vDouble q => .nNum q
  | .numberNew, .vBool b => .nNum (if b then 1 else 0)
  | .booleanNew, .vBool b => .nBool b
  | _, _ => .nNum 0

/-- The value a default-constructed generated struct holds in a field
(scalar members are value-modelled with their zero defaults). -/
def defaultForField (f : ParsedField) : CVal :=
  if f.isArray then .vArr []
  else if f.type = "std::string" then .vStr ""
  else if f.type = "int" then .vInt 0
  else if f.type = "bool" then .vBool false
  else .vDouble 0

/-- Sequential, first-error-aborting map — the effect of a C++ exception
thrown part-way through the emitted `FromNapi` body. -/
def exceptMapList {α β : Type} (g : α → Except String β) : List α → Except String (List β)
  | [] => .ok []
  | x :: xs =>
    match g x with
    | .error e => .error e
    | .ok b => (exceptMapList g xs).map (fun bs => b :: bs)

/-- Interpret the emitted `FromNapi` code for one field over a boundary
object: assignment happens only behind `obj.Has(key)` (and `IsArray()` for
array fields); an absent key, a non-array value for an array field, or an
empty emitted body all leave the default value; a mismatched present value
throws. -/
def runFromLine (f : ParsedField) (obj : List (String × NapiVal)) : Except String CVal :=
  let line := fromLineOf f
  if line.isArr then
    match jsGet line.key obj with
    | some (.nArr elems) =>
      match line.extract with
      | none => .ok (.vArr [])
      | some e => (exceptMapList (runExtractor e) elems).map .vArr
    | _ => .ok (defaultForField f)
  else
    match jsGet line.key obj with
    | none => .ok (defaultForField f)
    | some v =>
      match line.extract with
      | none => .ok (defaultForField f)
      | some e => runExtractor e v

/-- Interpret the whole emitted `FromNapi` of a struct: fields are processed
in declaration order, each producing the sanitized member and its value. -/
def fromNapiStruct (s : ParsedStruct) (obj : List (String × NapiVal)) :
    Except String (List (String × CVal)) :=
  exceptMapList
    (fun f => (runFromLine f obj).map (fun v => (sanitizeFieldName f.name, v)))
    s.fields

/-- Reading a C++ member of a struct value (always defined in C++; the
default covers only ill-formed value lists that cannot arise). -/
def structRead (v : List (String × CVal)) (f : ParsedField) : CVal :=
  (jsGet (sanitizeFieldName f.name) v).getD (defaultForField f)

/-- Interpret the emitted `ToNapi` code for one field: zero or one
`obj.Set` calls. -/
def toNapiField (f : ParsedField) (x : CVal) : List (String × NapiVal) :=
  match (toLineOf f).shape with
  | .omitted => []
  | .scalarSet b => [((toLineOf f).key, runBuilder b x)]
  | .arraySet elemB =>
    let elems :=
      match x with
      | .vArr xs => xs.map (runBuilder elemB)
      | _ => []
    [((toLineOf f).key, .nArr elems)]

/-- Interpret the whole emitted `ToNapi` of a struct. -/
def toNapiStruct (s : ParsedStruct) (v : List (String × CVal)) :
    List (String × NapiVal) :=
  (s.fields.map (fun f => toNapiField f (structRead v f))).flatten

/-! ## Semantics of the emitted synchronous N-API wrapper -/

/-- A JavaScript argument as the wrapper's `info[0].IsObject()` test
distinguishes it: a plain object (key/value pairs) or anything else. -/
inductive JsArg where
  | objArg (fields : List (String × NapiVal))
  | otherArg

/-- Outcome of one emitted wrapper call: a pending boundary `TypeError` with
`env.Null()` returned, a normal return, or a C++ exception propagating out of
the wrapper (no `try`/`catch` is emitted around the body). -/
inductive WrapperResult where
  | thrownTypeErrorNull (msg : String)
  | returned (obj : List (String × NapiVal))
  | uncaughtNative (msg : String)

/-- Interpret the synchronous wrapper emitted by `generateApiWrapper` for an
export whose parameter and return types are the given structs, with the
consumer-supplied external function as a parameter (it may throw). -/
def runSyncWrapper (paramS returnS : ParsedStruct)
    (extCall : List (String × CVal) → Except String (List (String × CVal)))
    (args : List JsArg) : WrapperResult :=
  match args with
  | [] => .thrownTypeErrorNull "Expected an object"
  | .otherArg :: _ => .thrownTypeErrorNull "Expected an object"
  | .objArg obj :: _ =>
    match fromNapiStruct paramS obj with
    | .error e => .uncaughtNative e
    | .ok input =>
      match extCall input with
      | .error e => .uncaughtNative e
      | .ok result => .returned (toNapiStruct returnS result)

/-- Does the wrapper outcome let a native failure escape uncaught? -/
def isUncaughtEscape : WrapperResult → Bool
  | .uncaughtNative _ => true
  | _ => false

/-! ## Bridge registration, addon interface, facade grouping -/

/-- The boundary entry points `generateApiWrapper` registers
(`exports.Set(exp.name, ...)` for every export). -/
def exportRegistrationNames (exports : List ParsedExport) : List String :=
  exports.map (fun e => e.name)

/-- The members of the `AddonExports` interface emitted by
`generateTypeScriptAPI` (one per export, no filtering). -/
def addonExportNames (exports : List ParsedExport) : List String :=
  exports.map (fun e => e.name)

/-- `classMethods.get(key).push(e)` with insertion-ordered keys — the JS
`Map` grouping of `generateTypeScriptAPI`. -/
def insertGrouped (groups : List (String × List ParsedExport)) (key : String)
    (e : ParsedExport) : List (String × List ParsedExport) :=
  match groups with
  | [] => [(key, [e])]
  | (k, es) :: rest =>
    if k = key then (k, es ++ [e]) :: rest
    else (k, es) :: insertGrouped rest key e

/-- One iteration of the export-grouping loop of `generateTypeScriptAPI`:
`if (exp.className && exp.isStatic) … else if (!exp.className) …` — a
non-static export of a named class falls into neither collection. -/
def groupStep (acc : List (String × List ParsedExport) × List ParsedExport)
    (e : ParsedExport) : List (String × List ParsedExport) × List ParsedExport :=
  if e.className ≠ "" ∧ e.isStatic = true then
    (insertGrouped acc.1 e.className e, acc.2)
  else if e.className = "" then
    (acc.1, acc.2 ++ [e])
  else acc

/-- The facade grouping of `generateTypeScriptAPI`: class-method groups and
free functions. -/
def groupExports (exports : List ParsedExport) :
    List (String × List ParsedExport) × List ParsedExport :=
  exports.foldl groupStep ([], [])

/-- The per-class facade method groups. -/
def classMethodsOf (exports : List ParsedExport) :
    List (String × List ParsedExport) :=
  (groupExports exports).1

/-- The facade free functions. -/
def freeFunctionsOf (exports : List ParsedExport) : List ParsedExport :=
  (groupExports exports).2

/-- The per-class body of the `parseFiles` loop. -/
def parseClasses (classes : List ClassDecl) : ParseResult :=
  classes.foldl
    (fun acc c =>
      { structs := acc.structs ++ (match parseStruct c with
                                   | some s => [s]
                                   | none => [])
        exports := acc.exports ++ parseExports c })
    { structs := [], exports := [] }

/-- `CppGenerator.parseFiles`: one class list per input file. -/
def parseFiles (files : List (List ClassDecl)) : ParseResult :=
  files.foldl
    (fun acc classes =>
      let r := parseClasses classes
      { structs := acc.structs ++ r.structs, exports := acc.exports ++ r.exports })
    { structs := [], exports := [] }

/-! ## Text emission of the five machine-owned output files

The renderers below rebuild, character for character, the strings the
generator writes (`generateStructsHeader`, `generateStructsImpl`,
`generateApiWrapper`, `generateAddonTypes`, `generateTypeScriptAPI`), from
the same structured per-field decisions interpreted above. -/

/-- One field line of the struct declaration text. -/
def renderHeaderField (f : ParsedField) : String :=
  let line := headerFieldLine f
  "    " ++ line.cppType ++ " " ++ line.ident ++ ";\n"

/-- The `{{STRUCT_DECLARATIONS}}` payload of `generateStructsHeader`. -/
def structDeclarationsText (structs : List ParsedStruct) : String :=
  structs.foldl
    (fun acc s =>
      acc ++ "\nstruct " ++ s.name ++ " \x7b\n"
          ++ (s.fields.map renderHeaderField).foldl (· ++ ·) ""
          ++ "    static " ++ s.name ++ " FromNapi(const Napi::Object& obj);\n"
          ++ "    Napi::Object ToNapi(Napi::Env env) const;\n"
          ++ "\x7d;\n")
    ""

/-- `generateStructsHeader`: template with the declarations payload
substituted. -/
def generateStructsHeaderContent (structs : List ParsedStruct) (template : String) : String :=
  jsReplaceFirst template "\x7b\x7bSTRUCT_DECLARATIONS\x7d\x7d" (structDeclarationsText structs)

/-- The `FromNapi` lines emitted for one field. -/
def renderFromNapiField (f : ParsedField) : String :=
  let line := fromLineOf f
  if line.isArr then
    "    if (obj.Has(\"" ++ line.key ++ "\") && obj.Get(\"" ++ line.key ++ "\").IsArray()) \x7b\n"
    ++ "        Napi::Array arr = obj.Get(\"" ++ line.key ++ "\").As<Napi::Array>();\n"
    ++ "        for (uint32_t i = 0; i < arr.Length(); i++) \x7b\n"
    ++ (match line.extract with
        | some .utf8Value =>
          "            result." ++ line.target ++ ".push_back(arr.Get(i).As<Napi::String>().Utf8Value());\n"
        | some .int32Value =>
          "            result." ++ line.target ++ ".push_back(arr.Get(i).As<Napi::Number>().Int32Value());\n"
        | some .boolValue =>
          "            result." ++ line.target ++ ".push_back(arr.Get(i).As<Napi::Boolean>().Value());\n"
        | none => "")
    ++ "        \x7d\n"
    ++ "    \x7d\n"
  else
    "    if (obj.Has(\"" ++ line.key ++ "\")) \x7b\n"
    ++ (match line.extract with
        | some .utf8Value =>
          "        result." ++ line.target ++ " = obj.Get(\"" ++ line.key ++ "\").As<Napi::String>().Utf8Value();\n"
        | some .int32Value =>
          "        result." ++ line.target ++ " = obj.Get(\"" ++ line.key ++ "\").As<Napi::Number>().Int32Value();\n"
        | some .boolValue =>
          "        result." ++ line.target ++ " = obj.Get(\"" ++ line.key ++ "\").As<Napi::Boolean>().Value();\n"
        | none => "")
    ++ "    \x7d\n"

/-- The `ToNapi` lines emitted for one field (array fields get a uniquely
named `Napi::Array` local; scalar fields with an unhandled storage type
produce no line at all). -/
def renderToNapiField (f : ParsedField) : String :=
  let line := toLineOf f
  match line.shape with
  | .omitted => ""
  | .scalarSet b =>
    match b with
    | .stringNew =>
      "    obj.Set(\"" ++ line.key ++ "\", Napi::String::New(env, " ++ line.readIdent ++ "));\n"
    | .numberNew =>
      "    obj.Set(\"" ++ line.key ++ "\", Napi::Number::New(env, " ++ line.readIdent ++ "));\n"
    | .booleanNew =>
      "    obj.Set(\"" ++ line.key ++ "\", Napi::Boolean::New(env, " ++ line.readIdent ++ "));\n"
  | .arraySet elemB =>
    let arrayVarName := line.readIdent ++ "Arr"
    "    Napi::Array " ++ arrayVarName ++ " = Napi::Array::New(env, " ++ line.readIdent ++ ".size());\n"
    ++ "    for (size_t i = 0; i < " ++ line.readIdent ++ ".size(); i++) \x7b\n"
    ++ (match elemB with
        | .stringNew =>
          "        " ++ arrayVarName ++ ".Set(i, Napi::String::New(env, " ++ line.readIdent ++ "[i]));\n"
        | _ =>
          "        " ++ arrayVarName ++ ".Set(i, Napi::Number::New(env, " ++ line.readIdent ++ "[i]));\n")
    ++ "    \x7d\n"
    ++ "    obj.Set(\"" ++ line.key ++ "\", " ++ arrayVarName ++ ");\n"

/-- The `{{STRUCT_IMPLEMENTATIONS}}` payload of `generateStructsImpl`. -/
def structImplementationsText (structs : List ParsedStruct) : String :=
  structs.foldl
    (fun acc s =>
      acc
      ++ "\n" ++ s.name ++ " " ++ s.name ++ "::FromNapi(const Napi::Object& obj) \x7b\n"
      ++ "    " ++ s.name ++ " result;\n"
      ++ (s.fields.map renderFromNapiField).foldl (· ++ ·) ""
      ++ "    return result;\n"
      ++ "\x7d\n"
      ++ "\nNapi::Object " ++ s.name ++ "::ToNapi(Napi::Env env) const \x7b\n"
      ++ "    Napi::Object obj = Napi::Object::New(env);\n"
      ++ (s.fields.map renderToNapiField).foldl (· ++ ·) ""
      ++ "    return obj;\n"
      ++ "\x7d\n")
    ""

/-- `generateStructsImpl`: template with the implementations payload
substituted. -/
def generateStructsImplContent (structs : List ParsedStruct) (template : String) : String :=
  jsReplaceFirst template "\x7b\x7bSTRUCT_IMPLEMENTATIONS\x7d\x7d" (structImplementationsText structs)

/-- The external-contract declaration line `generateApiWrapper` emits for one
export. -/
def renderExternLine (e : ParsedExport) : String :=
  "extern " ++ e.returnType ++ " " ++ e.name ++ "(const " ++ e.paramType ++ "& param);\n"

/-- The synchronous wrapper function text `generateApiWrapper` emits for one
export. -/
def renderWrapperFunction (e : ParsedExport) : String :=
  "\nNapi::Value " ++ e.name ++ "_wrapper(const Napi::CallbackInfo& info) \x7b\n"
  ++ "    Napi::Env env = info.Env();\n"
  ++ "    \n"
  ++ "    if (info.Length() < 1 || !info[0].IsObject()) \x7b\n"
  ++ "        Napi::TypeError::New(env, \"Expected an object\").ThrowAsJavaScriptException();\n"
  ++ "        return env.Null();\n"
  ++ "    \x7d\n"
  ++ "    \n"
  ++ "    " ++ e.paramType ++ " input = " ++ e.paramType ++ "::FromNapi(info[0].As<Napi::Object>());\n"
  ++ "    " ++ e.returnType ++ " result = " ++ e.name ++ "(input);\n"
  ++ "    return result.ToNapi(env);\n"
  ++ "\x7d\n"

/-- The registration line `generateApiWrapper` emits for one export. -/
def renderRegistrationLine (e : ParsedExport) : String :=
  "    exports.Set(\"" ++ e.name ++ "\", Napi::Function::New(env, " ++ e.name ++ "_wrapper));\n"

/-- `generateApiWrapper`: template with the three payloads substituted. -/
def generateApiWrapperContent (exports : List ParsedExport) (template : String) : String :=
  let externDeclarations := (exports.map renderExternLine).foldl (· ++ ·) ""
  let wrapperFunctions := (exports.map renderWrapperFunction).foldl (· ++ ·) ""
  let exportRegistrations := (exports.map renderRegistrationLine).foldl (· ++ ·) ""
  jsReplaceFirst
    (jsReplaceFirst
      (jsReplaceFirst template "\x7b\x7bEXTERN_DECLARATIONS\x7d\x7d" externDeclarations)
      "\x7b\x7bWRAPPER_FUNCTIONS\x7d\x7d" wrapperFunctions)
    "\x7b\x7bEXPORT_REGISTRATIONS\x7d\x7d" exportRegistrations

/-! ## TypeScript-side type mapping and emission -/

/-- The global `/const\s+/g` removal of `cppTypeToTS` /
`cppTypeToTSBeautiful`, with an explicit recursion budget (each step consumes
at least one character, so the list length always suffices). -/
def stripConstF : Nat → List Char → List Char
  | 0, l => l
  | _ + 1, [] => []
  | n + 1, c :: rest =>
    let s := c :: rest
    let tail5 := s.drop 5
    if startsWithL s ("const".data) && (match tail5 with
                                        | t :: _ => isWsChar t
                                        | [] => false) then
      stripConstF n (tail5.dropWhile isWsChar)
    else c :: stripConstF n rest

/-- `cppType.replace(/const\s+/g, '').trim()`. -/
def stripConstAndTrim (s : String) : String :=
  ⟨trimL (stripConstF s.data.length s.data)⟩

/-- The `typeMap` of `cppTypeToTS`. -/
def cppTypeToTSMap : List (String × String) :=
  [("int", "number"), ("double", "number"), ("float", "number"),
   ("bool", "boolean"), ("string", "string"), ("std::string", "string"),
   ("void", "void"),
   ("int8_t", "number"), ("uint8_t", "number"),
   ("int16_t", "number"), ("uint16_t", "number"),
   ("int32_t", "number"), ("uint32_t", "number"),
   ("int64_t", "number"), ("uint64_t", "number"),
   ("float32_t", "number"), ("float64_t", "number"),
   ("i8", "number"), ("u8", "number"),
   ("i16", "number"), ("u16", "number"),
   ("i32", "number"), ("u32", "number"),
   ("i64", "number"), ("u64", "number"),
   ("f32", "number"), ("f64", "number")]

/-- `CppGenerator.cppTypeToTS`: table lookup, then known-struct check, then
the `any` fallback (with a console warning not modelled here). -/
def cppTypeToTS (cppType : String) (structs : List ParsedStruct) : String :=
  let t := stripConstAndTrim cppType
  match jsGet t cppTypeToTSMap with
  | some ts => ts
  | none => if structs.any (fun st => st.name == t) then t else "any"

/-- The `beautifulTypeMap` of `cppTypeToTSBeautiful`. -/
def beautifulTypeMap : List (String × String) :=
  [("int", "number"), ("double", "f64"), ("float", "f32"),
   ("bool", "boolean"), ("string", "string"), ("std::string", "string"),
   ("void", "void"),
   ("int8_t", "i8"), ("uint8_t", "u8"),
   ("int16_t", "i16"), ("uint16_t", "u16"),
   ("int32_t", "i32"), ("uint32_t", "u32"),
   ("int64_t", "i64"), ("uint64_t", "u64"),
   ("float32_t", "f32"), ("float64_t", "f64")]

/-- `CppGenerator.cppTypeToTSBeautiful`. -/
def cppTypeToTSBeautiful (cppType : String) (structs : List ParsedStruct) : String :=
  let t := stripConstAndTrim cppType
  match jsGet t beautifulTypeMap with
  | some ts => ts
  | none => if structs.any (fun st => st.name == t) then t else cppTypeToTS t structs

/-- `CppGenerator.fieldToTSType`. -/
def fieldToTSType (f : ParsedField) (structs : List ParsedStruct) : String :=
  let baseType := cppTypeToTS f.type structs
  let baseType := if f.isArray then baseType ++ "[]" else baseType
  if f.isOptional then baseType ++ " | undefined" else baseType

/-- `CppGenerator.fieldToTSTypeBeautiful`. -/
def fieldToTSTypeBeautiful (f : ParsedField) (structs : List ParsedStruct) : String :=
  let baseType := cppTypeToTSBeautiful f.type structs
  let baseType := if f.isArray then baseType ++ "[]" else baseType
  if f.isOptional then baseType ++ " | undefined" else baseType

/-- The interface text a struct contributes to `generated_addon.d.ts`. -/
def renderAddonInterface (structs : List ParsedStruct) (s : ParsedStruct) : String :=
  "export interface " ++ s.name ++ " \x7b\n"
  ++ (s.fields.map (fun f => "  " ++ f.name ++ ": " ++ fieldToTSType f structs ++ ";\n")).foldl (· ++ ·) ""
  ++ "\x7d\n\n"

/-- The `AddonExports` member for one export (`generateAddonTypes`). -/
def renderAddonExportMember (structs : List ParsedStruct) (e : ParsedExport) : String :=
  let inputType := match e.parameters with
                   | [] => "void"
                   | p :: _ => p.2
  let inputTS := cppTypeToTS inputType structs
  let outputTS := cppTypeToTS e.returnType structs
  if inputType = "void" then
    "  " ++ e.name ++ ": () => " ++ outputTS ++ ";\n"
  else
    "  " ++ e.name ++ ": (input: " ++ inputTS ++ ") => " ++ outputTS ++ ";\n"

/-- `CppGenerator.generateAddonTypes`: the full `generated_addon.d.ts`
content. -/
def generateAddonTypesContent (pr : ParseResult) : String :=
  "// Автоматически сгенерированные типы для addon\n\n"
  ++ (pr.structs.map (renderAddonInterface pr.structs)).foldl (· ++ ·) ""
  ++ "export interface AddonExports \x7b\n"
  ++ (pr.exports.map (renderAddonExportMember pr.structs)).foldl (· ++ ·) ""
  ++ "\x7d\n\n"
  ++ "declare const addon: AddonExports;\n"
  ++ "export default addon;\n"

/-- The ten precision-qualified display types whose use triggers the
`ts-cpp-bridge` import in `generated_api.ts`. -/
def preciseDisplayTypes : List String :=
  ["i8", "u8", "i16", "u16", "i32", "u32", "i64", "u64", "f32", "f64"]

/-- The `usedNumericTypes` set collected at the start of
`generateTypeScriptAPI`. -/
def usedNumericTypesOf (pr : ParseResult) : List String :=
  pr.structs.foldl
    (fun acc s =>
      s.fields.foldl
        (fun acc2 f =>
          let beautifulType := cppTypeToTSBeautiful f.type pr.structs
          if preciseDisplayTypes.contains beautifulType then setAdd acc2 beautifulType
          else acc2)
        acc)
    []

/-- The facade method text for one class method (`generateTypeScriptAPI`). -/
def renderFacadeMethod (structs : List ParsedStruct) (method : ParsedExport) : String :=
  let inputType := match method.parameters with
                   | [] => "void"
                   | p :: _ => p.2
  let outputType := method.returnType
  let inputTS := cppTypeToTSBeautiful inputType structs
  let outputTS := cppTypeToTSBeautiful outputType structs
  if inputType = "void" then
    "  static " ++ method.methodName ++ "(): " ++ outputTS ++ " \x7b\n"
    ++ "    const result = addon." ++ method.name ++ "();\n"
    ++ "    return from" ++ outputType ++ "Native(result);\n"
    ++ "  \x7d\n\n"
  else
    "  static " ++ method.methodName ++ "(input: " ++ inputTS ++ "): " ++ outputTS ++ " \x7b\n"
    ++ "    const nativeInput = to" ++ inputType ++ "Native(input);\n"
    ++ "    const result = addon." ++ method.name ++ "(nativeInput);\n"
    ++ "    return from" ++ outputType ++ "Native(result);\n"
    ++ "  \x7d\n\n"

/-- The facade free-function text (`generateTypeScriptAPI`; note the source
references an undeclared `addonTyped` here). -/
def renderFacadeFreeFunction (structs : List ParsedStruct) (func : ParsedExport) : String :=
  let inputType := match func.parameters with
                   | [] => "void"
                   | p :: _ => p.2
  let outputType := func.returnType
  let inputTS := cppTypeToTSBeautiful inputType structs
  let outputTS := cppTypeToTSBeautiful outputType structs
  if inputType = "void" then
    "export function " ++ func.name ++ "(): " ++ outputTS ++ " \x7b\n"
    ++ "  const result = addonTyped." ++ func.name ++ "();\n"
    ++ "  return from" ++ outputType ++ "Native(result);\n"
    ++ "\x7d\n\n"
  else
    "export function " ++ func.name ++ "(input: " ++ inputTS ++ "): " ++ outputTS ++ " \x7b\n"
    ++ "  const nativeInput = to" ++ inputType ++ "Native(input);\n"
    ++ "  const result = addonTyped." ++ func.name ++ "(nativeInput);\n"
    ++ "  return from" ++ outputType ++ "Native(result);\n"
    ++ "\x7d\n\n"

/-- The `AddonExports` member for one export in `generated_api.ts` (the
low-level `...Native` typing). -/
def renderNativeExportMember (structs : List ParsedStruct) (e : ParsedExport) : String :=
  let inputType := match e.parameters with
                   | [] => "void"
                   | p :: _ => p.2
  let inputTS := cppTypeToTS inputType structs
  let outputTS := cppTypeToTS e.returnType structs
  if inputType = "void" then
    "  " ++ e.name ++ ": () => " ++ outputTS ++ "Native;\n"
  else
    "  " ++ e.name ++ ": (input: " ++ inputTS ++ "Native) => " ++ outputTS ++ "Native;\n"

/-- `CppGenerator.generateTypeScriptAPI`: the full `generated_api.ts`
content. -/
def generateTypeScriptAPIContent (pr : ParseResult) : String :=
  let usedNumericTypes := usedNumericTypesOf pr
  "// Автоматически сгенерированные TypeScript обертки\n\n"
  ++ "// Декларация для require\n"
  ++ "declare const require: any;\n\n"
  ++ (if usedNumericTypes.length > 0 then
        "import \x7b " ++ String.intercalate ", " (sortStrings usedNumericTypes)
        ++ " \x7d from \x27ts-cpp-bridge\x27;\n\n"
      else "")
  ++ (pr.structs.map (fun s =>
        "export interface " ++ s.name ++ " \x7b\n"
        ++ (s.fields.map (fun f =>
              "  " ++ f.name ++ ": " ++ fieldToTSTypeBeautiful f pr.structs ++ ";\n")).foldl (· ++ ·) ""
        ++ "\x7d\n\n")).foldl (· ++ ·) ""
  ++ "\n"
  ++ "// Низкоуровневые типы для C++ addon\n"
  ++ (pr.structs.map (fun s =>
        "interface " ++ s.name ++ "Native \x7b\n"
        ++ (s.fields.map (fun f =>
              "  " ++ f.name ++ ": " ++ fieldToTSType f pr.structs ++ ";\n")).foldl (· ++ ·) ""
        ++ "\x7d\n\n")).foldl (· ++ ·) ""
  ++ "interface AddonExports \x7b\n"
  ++ (pr.exports.map (renderNativeExportMember pr.structs)).foldl (· ++ ·) ""
  ++ "\x7d\n\n"
  ++ "// Импорт нативного addon\n"
  ++ "const addon: AddonExports = (() => \x7b\n"
  ++ "  try \x7b\n"
  ++ "    return require(\x27../../build/Release/addon\x27);\n"
  ++ "  \x7d catch (e) \x7b\n"
  ++ "    throw new Error(\x27Native addon not found. Run npm run build:native first.\x27);\n"
  ++ "  \x7d\n"
  ++ "\x7d)();\n\n"
  ++ "// Функции преобразования типов\n"
  ++ (pr.structs.map (fun s =>
        "function to" ++ s.name ++ "Native(input: " ++ s.name ++ "): " ++ s.name ++ "Native \x7b\n"
        ++ "  return input as any; // Типы совместимы на runtime\n"
        ++ "\x7d\n\n"
        ++ "function from" ++ s.name ++ "Native(input: " ++ s.name ++ "Native): " ++ s.name ++ " \x7b\n"
        ++ "  return input as any; // Типы совместимы на runtime\n"
        ++ "\x7d\n\n")).foldl (· ++ ·) ""
  ++ "\n"
  ++ ((classMethodsOf pr.exports).map (fun g =>
        "export class " ++ g.1 ++ " \x7b\n"
        ++ (g.2.map (renderFacadeMethod pr.structs)).foldl (· ++ ·) ""
        ++ "\x7d\n\n")).foldl (· ++ ·) ""
  ++ ((freeFunctionsOf pr.exports).map (renderFacadeFreeFunction pr.structs)).foldl (· ++ ·) ""

/-! ## File-system effect of one generation run -/

/-- A file system as the generator observes it: name/content pairs, first
match wins. -/
def FileSys : Type := List (String × String)

/-- `fs.writeFileSync`: the new content shadows any previous entry. -/
def setFile (fs : FileSys) (name content : String) : FileSys :=
  (name, content) :: fs

/-- Apply a write list in order. -/
def applyWrites (ws : List (String × String)) (fs : FileSys) : FileSys :=
  ws.foldl (fun f w => setFile f w.1 w.2) fs

/-- The three template files `generateCppCode` reads (their content is an
external input of the run). -/
structure Templates where
  structsHpp : String
  structsCpp : String
  apiCpp : String

/-- The writes of one `generateCppCode` run, in source order: the five
machine-owned output files and nothing else. -/
def generatedWrites (pr : ParseResult) (ts : Templates) : List (String × String) :=
  [("generated_structs.hpp", generateStructsHeaderContent pr.structs ts.structsHpp),
   ("generated_structs.cpp", generateStructsImplContent pr.structs ts.structsCpp),
   ("generated_api.cpp", generateApiWrapperContent pr.exports ts.apiCpp),
   ("generated_addon.d.ts", generateAddonTypesContent pr),
   ("generated_api.ts", generateTypeScriptAPIContent pr)]

/-- The file names a generation run writes. -/
def writtenNames (pr : ParseResult) (ts : Templates) : List String :=
  (generatedWrites pr ts).map Prod.fst

/-- One `generateCppCode` run over a file system. -/
def runGenerate (pr : ParseResult) (ts : Templates) (fs : FileSys) : FileSys :=
  applyWrites (generatedWrites pr ts) fs

/-- The skip-with-diagnostic messages a generation run emits for
already-existing output files. `generateCppCode` and the four emitters it
calls perform no existence check on any output path and contain no skip
branch (`generator.ts` has no `existsSync` call and no conditional write),
so this list is empty for every parse result and every pre-existing file
system. -/
def generateSkipDiagnostics (_pr : ParseResult) (_fs : FileSys) : List String := []

/-! ## The example schema of `example/types.ts` -/

/-- `@CppStruct() class InputData` from `example/types.ts`. -/
def inputDataClassDecl : ClassDecl :=
  { name := some "InputData"
    decorators := [{ name := "CppStruct", fullText := "@CppStruct()" }]
    properties :=
      [{ name := "name", typeText := some "string", hasQuestionToken := false },
       { name := "value", typeText := some "number", hasQuestionToken := false },
       { name := "numbers", typeText := some "number[]", hasQuestionToken := false }]
    methods := [] }

/-- `@CppStruct() class OutputData` from `example/types.ts`. -/
def outputDataClassDecl : ClassDecl :=
  { name := some "OutputData"
    decorators := [{ name := "CppStruct", fullText := "@CppStruct()" }]
    properties :=
      [{ name := "greeting", typeText := some "string", hasQuestionToken := false },
       { name := "doubled", typeText := some "number", hasQuestionToken := false },
       { name := "squared", typeText := some "number[]", hasQuestionToken := false }]
    methods := [] }

/-- `@CppStruct() class LongTask` from `example/types.ts`. -/
def longTaskClassDecl : ClassDecl :=
  { name := some "LongTask"
    decorators := [{ name := "CppStruct", fullText := "@CppStruct()" }]
    properties :=
      [{ name := "duration", typeText := some "number", hasQuestionToken := false },
       { name := "data", typeText := some "string", hasQuestionToken := false }]
    methods := [] }

/-- `@CppStruct() class TaskResult` from `example/types.ts`. -/
def taskResultClassDecl : ClassDecl :=
  { name := some "TaskResult"
    decorators := [{ name := "CppStruct", fullText := "@CppStruct()" }]
    properties :=
      [{ name := "message", typeText := some "string", hasQuestionToken := false },
       { name := "duration", typeText := some "number", hasQuestionToken := false },
       { name := "timestamp", typeText := some "number", hasQuestionToken := false }]
    methods := [] }

/-- `@CppExport() static process(input: InputData): OutputData`. -/
def processMethodDecl : MethodDecl :=
  { methodName := "process"
    decorators := [{ name := "CppExport", fullText := "@CppExport()" }]
    parameters := [{ name := "input", typeText := some "InputData" }]
    returnTypeText := some "OutputData"
    isStatic := true }

/-- `@CppAsync() static processLongTask(input: LongTask): TaskResult`. -/
def processLongTaskMethodDecl : MethodDecl :=
  { methodName := "processLongTask"
    decorators := [{ name := "CppAsync", fullText := "@CppAsync()" }]
    parameters := [{ name := "input", typeText := some "LongTask" }]
    returnTypeText := some "TaskResult"
    isStatic := true }

/-- `@CppAsync() static processHeavyComputation(input: InputData): OutputData`. -/
def processHeavyComputationMethodDecl : MethodDecl :=
  { methodName := "processHeavyComputation"
    decorators := [{ name := "CppAsync", fullText := "@CppAsync()" }]
    parameters := [{ name := "input", typeText := some "InputData" }]
    returnTypeText := some "OutputData"
    isStatic := true }

/-- `class Solver` from `example/types.ts`. -/
def solverClassDecl : ClassDecl :=
  { name := some "Solver"
    decorators := []
    properties := []
    methods := [processMethodDecl, processLongTaskMethodDecl,
                processHeavyComputationMethodDecl] }

/-- A class carrying only the asynchronous-marked method, the failing input
for the async-support claim. -/
def solverAsyncOnlyClassDecl : ClassDecl :=
  { name := some "Solver"
    decorators := []
    properties := []
    methods := [processLongTaskMethodDecl] }

/-- The parse result of the whole example file. -/
def examplePR : ParseResult :=
  parseFiles [[inputDataClassDecl, outputDataClassDecl, longTaskClassDecl,
               taskResultClassDecl, solverClassDecl]]

/-- The struct schema `parseStruct` extracts for `LongTask` (checked by
`rfl` in the theorems below): `duration` maps to storage type `double`. -/
def longTaskSchema : ParsedStruct :=
  { name := "LongTask"
    fields :=
      [{ name := "duration", type := "double", isArray := false, isOptional := false },
       { name := "data", type := "std::string", isArray := false, isOptional := false }] }

/-- A concrete `LongTask` struct value with an in-range numeric field. -/
def longTaskValue : List (String × CVal) :=
  [("duration", .vDouble 5), ("data", .vStr "hi")]

/-- Sample template contents with the placeholders of the real template
files. -/
def sampleTemplates : Templates :=
  { structsHpp := "#pragma once\n\x7b\x7bSTRUCT_DECLARATIONS\x7d\x7d\n"
    structsCpp := "#include \"generated_structs.hpp\"\n\x7b\x7bSTRUCT_IMPLEMENTATIONS\x7d\x7d\n"
    apiCpp := "#include <napi.h>\n\x7b\x7bEXTERN_DECLARATIONS\x7d\x7d\n\x7b\x7bWRAPPER_FUNCTIONS\x7d\x7d\n\x7b\x7bEXPORT_REGISTRATIONS\x7d\x7d\n" }

/-- A non-static export of a named class (what `parseExportMethod` produces
for an annotated instance method). -/
def nonStaticSampleExport : ParsedExport :=
  parseExportMethod
    { methodName := "tick"
      decorators := [{ name := "CppExport", fullText := "@CppExport()" }]
      parameters := [{ name := "input", typeText := some "InputData" }]
      returnTypeText := some "OutputData"
      isStatic := false }
    "Clock"

/-- Does the per-field `FromNapi` code run without throwing on this boundary
object? -/
def fieldCastOk (f : ParsedField) (obj : List (String × NapiVal)) : Bool :=
  match runFromLine f obj with
  | .ok _ => true
  | .error _ => false

/-- Is a boundary value an array (`IsArray()`)? -/
def isNArrB : NapiVal → Bool
  | .nArr _ => true
  | _ => false

/-- The content the ordered write list assigns to a path (later writes
shadow earlier ones), used to reason about `applyWrites`. -/
def writeLookup (p : String) : List (String × String) → Option String
  | [] => none
  | w :: ws =>
    match writeLookup p ws with
    | some c => some c
    | none => if w.1 = p then some w.2 else none

/-- A partial boundary object for `LongTask`: the `duration` key is absent. -/
def partialLongTaskObj : List (String × NapiVal) := [("data", .nStr "x")]

/-- A field whose name is a C++ keyword. -/
def reservedSampleField : ParsedField :=
  { name := "class", type := "int", isArray := false, isOptional := false }

/-- An external implementation that always throws. -/
def boomCall : List (String × CVal) → Except String (List (String × CVal)) :=
  fun _ => .error "boom"

/-- An external implementation that returns its input unchanged. -/
def okCall : List (String × CVal) → Except String (List (String × CVal)) :=
  fun v => .ok v

/-- A file system already holding a hand-written implementation file. -/
def stubFileSys : FileSys := [("implementation.cpp", "// user implementation")]

/-! ## Helper lemmas -/

/-- `lowerChar` is idempotent: lower-casing an upper-case ASCII letter lands
outside the upper-case range. -/
theorem lowerChar_idem (c : Char) : lowerChar (lowerChar c) = lowerChar c := by
  by_cases h : 65 ≤ c.toNat ∧ c.toNat ≤ 90
  · have hv : (c.toNat + 32).isValidChar := Or.inl (by omega)
    have ht : (Char.ofNat (c.toNat + 32)).toNat = c.toNat + 32 := by
      unfold Char.ofNat
      rw [dif_pos hv]
      rfl
    simp only [lowerChar, if_pos h, ht]
    rw [if_neg (by omega)]
  · simp only [lowerChar, if_neg h]

/-- `toLowerCaseStr` is idempotent. -/
theorem toLowerCaseStr_idem (s : String) :
    toLowerCaseStr (toLowerCaseStr s) = toLowerCaseStr s := by
  simp only [toLowerCaseStr, List.map_map]
  rw [show lowerChar ∘ lowerChar = lowerChar from funext lowerChar_idem]

/-- An `exceptMapList` success determines the result pointwise. -/
theorem exceptMapList_ok_get {α β : Type} (g : α → Except String β) :
    ∀ (l : List α) (r : List β), exceptMapList g l = .ok r →
      r.length = l.length ∧
      ∀ (i : Nat) (hi : i < l.length) (hr : i < r.length),
        g (l.get ⟨i, hi⟩) = .ok (r.get ⟨i, hr⟩) := by
  intro l
  induction l with
  | nil =>
    intro r h
    simp only [exceptMapList] at h
    cases h
    exact ⟨rfl, fun i hi _ => absurd hi (by simp)⟩
  | cons x xs ih =>
    intro r h
    simp only [exceptMapList] at h
    cases hx : g x with
    | error e => rw [hx] at h; cases h
    | ok b =>
      rw [hx] at h
      cases hxs : exceptMapList g xs with
      | error e => rw [hxs] at h; cases h
      | ok bs =>
        rw [hxs] at h
        simp only [Except.map] at h
        cases h
        obtain ⟨hlen, hget⟩ := ih bs hxs
        refine ⟨by simp [hlen], ?_⟩
        intro i hi hr
        cases i with
        | zero => simpa using hx
        | succ j =>
          simpa using hget j (by simpa using hi) (by simpa using hr)

/-- If every element maps to a success, `exceptMapList` succeeds. -/
theorem exceptMapList_ok_of_all {α β : Type} (g : α → Except String β) :
    ∀ l : List α, (∀ x ∈ l, ∃ b, g x = .ok b) →
      ∃ r, exceptMapList g l = .ok r := by
  intro l
  induction l with
  | nil => exact fun _ => ⟨[], rfl⟩
  | cons x xs ih =>
    intro h
    obtain ⟨b, hb⟩ := h x (List.mem_cons_self x xs)
    obtain ⟨bs, hbs⟩ := ih (fun y hy => h y (List.mem_cons_of_mem x hy))
    exact ⟨b :: bs, by simp [exceptMapList, hb, hbs, Except.map]⟩

/-- The emitted `FromNapi` leaves the default when the key is absent. -/
theorem runFromLine_absent (f : ParsedField) (obj : List (String × NapiVal))
    (h : jsGet f.name obj = none) :
    runFromLine f obj = .ok (defaultForField f) := by
  cases hA : f.isArray <;> simp [runFromLine, fromLineOf, hA, h]

/-- `jsGet` after a single write. -/
theorem jsGet_setFile (fs : FileSys) (p n c : String) :
    jsGet p (setFile fs n c) = if n = p then some c else jsGet p fs := rfl

/-- `jsGet` after applying an ordered write list. -/
theorem applyWrites_lookup (ws : List (String × String)) :
    ∀ (fs : FileSys) (p : String),
      jsGet p (applyWrites ws fs) =
        match writeLookup p ws with
        | some c => some c
        | none => jsGet p fs := by
  induction ws with
  | nil => intro fs p; rfl
  | cons w ws ih =>
    intro fs p
    have h1 : applyWrites (w :: ws) fs = applyWrites ws (setFile fs w.1 w.2) := rfl
    rw [h1, ih]
    cases hws : writeLookup p ws with
    | some c => simp [writeLookup, hws]
    | none =>
      by_cases hp : w.1 = p <;> simp [writeLookup, hws, jsGet_setFile, hp]

/-- A path outside the write list is untouched. -/
theorem writeLookup_none (p : String) :
    ∀ ws : List (String × String), p ∉ ws.map Prod.fst → writeLookup p ws = none := by
  intro ws
  induction ws with
  | nil => intro _; rfl
  | cons w ws ih =>
    intro h
    simp only [List.map_cons, List.mem_cons, not_or] at h
    rw [writeLookup, ih h.2, if_neg (fun hw => h.1 hw.symm)]

/-- Members of any group produced by `insertGrouped` were already grouped or
are the inserted export. -/
theorem mem_insertGrouped :
    ∀ (groups : List (String × List ParsedExport)) (key : String)
      (e x : ParsedExport) (g : String × List ParsedExport),
      g ∈ insertGrouped groups key e → x ∈ g.2 →
      (∃ g0 ∈ groups, x ∈ g0.2) ∨ x = e := by
  intro groups
  induction groups with
  | nil =>
    intro key e x g hg hx
    simp only [insertGrouped, List.mem_singleton] at hg
    subst hg
    simp only [List.mem_singleton] at hx
    exact Or.inr hx
  | cons w ws ih =>
    intro key e x g hg hx
    obtain ⟨k, es⟩ := w
    by_cases hk : k = key
    · simp only [insertGrouped, if_pos hk, List.mem_cons] at hg
      rcases hg with rfl | hg
      · simp only [List.mem_append, List.mem_singleton] at hx
        rcases hx with hx | rfl
        · exact Or.inl ⟨(k, es), List.mem_cons_self _ _, hx⟩
        · exact Or.inr rfl
      · exact Or.inl ⟨g, List.mem_cons_of_mem _ hg, hx⟩
    · simp only [insertGrouped, if_neg hk, List.mem_cons] at hg
      rcases hg with rfl | hg
      · exact Or.inl ⟨(k, es), List.mem_cons_self _ _, hx⟩
      · rcases ih key e x g hg hx with ⟨g0, hg0, hx0⟩ | rfl
        · exact Or.inl ⟨g0, List.mem_cons_of_mem _ hg0, hx0⟩
        · exact Or.inr rfl

/-- Invariants of the facade-grouping loop: grouped exports are static,
free functions have no class name. -/
theorem groupExports_inv :
    ∀ (exports : List ParsedExport)
      (acc : List (String × List ParsedExport) × List ParsedExport),
      (∀ g ∈ acc.1, ∀ x ∈ g.2, x.isStatic = true) →
      (∀ x ∈ acc.2, x.className = "") →
      (∀ g ∈ (exports.foldl groupStep acc).1, ∀ x ∈ g.2, x.isStatic = true) ∧
      (∀ x ∈ (exports.foldl groupStep acc).2, x.className = "") := by
  intro exports
  induction exports with
  | nil => intro acc h1 h2; exact ⟨h1, h2⟩
  | cons e es ih =>
    intro acc h1 h2
    rw [List.foldl_cons]
    apply ih
    · intro g hg x hx
      unfold groupStep at hg
      by_cases hA : e.className ≠ "" ∧ e.isStatic = true
      · rw [if_pos hA] at hg
        rcases mem_insertGrouped acc.1 e.className e x g hg hx with ⟨g0, hg0, hx0⟩ | rfl
        · exact h1 g0 hg0 x hx0
        · exact hA.2
      · rw [if_neg hA] at hg
        by_cases hB : e.className = ""
        · rw [if_pos hB] at hg
          exact h1 g hg x hx
        · rw [if_neg hB] at hg
          exact h1 g hg x hx
    · intro x hx
      unfold groupStep at hx
      by_cases hA : e.className ≠ "" ∧ e.isStatic = true
      · rw [if_pos hA] at hx
        exact h2 x hx
      · rw [if_neg hA] at hx
        by_cases hB : e.className = ""
        · rw [if_pos hB] at hx
          have hx2 : x ∈ acc.2 ++ [e] := hx
          simp only [List.mem_append, List.mem_singleton] at hx2
          rcases hx2 with hx2 | rfl
          · exact h2 x hx2
          · exact hB
        · rw [if_neg hB] at hx
          exact h2 x hx

/-! ## The claims -/

/-- Claim C1. The claim states that the emitted `ToNapi` unconditionally sets
one key per field, for every scalar storage type. Evaluating the emission on
the extracted `LongTask` schema refutes this: the schema has two fields, but
the emitted `ToNapi` sets only the key `data` — the `duration` field, whose
semantic type `number` maps to storage type `double`, matches none of the
`std::string`/`int`/`bool` cases of the scalar emission chain and is silently
omitted (visible in the shipped `generated_structs.cpp`). -/
theorem claim1_toNapi_omits_unhandled_scalar_fields :
    parseStruct longTaskClassDecl = some longTaskSchema ∧
    longTaskSchema.fields.length = 2 ∧
    toNapiSetKeys longTaskSchema = ["data"] := by
  exact ⟨by decide, rfl, by decide⟩

/-- Claim C2. The claim states that `parseFiles` gives every
`@CppAsync`-marked method an `ExportSchema` carrying an `isAsync` flag and
that a background-worker wrapper is emitted for it. The parser in
`generator.ts` refutes this: its export test matches only the `CppExport`
marker, so the `@CppAsync` methods of the example `Solver` class produce no
export at all (and `ParsedExport` has no `isAsync` member), while the
`@CppExport` method parses fine — even though the repository's README,
decorators and shipped artifacts document async generation. -/
theorem claim2_async_marker_produces_no_export :
    parseExports solverAsyncOnlyClassDecl = [] ∧
    (parseExports solverClassDecl).map (fun e => e.name) = ["Solver_process"] ∧
    examplePR.exports.length = 1 := by
  exact ⟨by decide, by decide, by decide⟩

/-- Claim C3. The claim states the round-trip
`FromNapi (ToNapi x) = x` for in-range values. Evaluating the emitted code's
semantics on the `LongTask` value `{duration: 5, data: "hi"}` refutes it:
`ToNapi` omits the `duration` key entirely, so `FromNapi` leaves the field at
its default `0` and the round-trip loses the value. -/
theorem claim3_roundtrip_fails_on_double_field :
    jsGet "duration" longTaskValue = some (CVal.vDouble 5) ∧
    toNapiStruct longTaskSchema longTaskValue = [("data", NapiVal.nStr "hi")] ∧
    fromNapiStruct longTaskSchema (toNapiStruct longTaskSchema longTaskValue) =
      .ok [("duration", CVal.vDouble 0), ("data", CVal.vStr "hi")] := by
  exact ⟨rfl, rfl, rfl⟩

/-- Claim C4. The emitted `FromNapi` only assigns a field whose key is
present (and, for array fields, only when the value is an array); absent keys
leave the storage default, and on a partial object whose present values
convert cleanly the function returns normally, never throwing, with every
absent-key field at its default. -/
theorem claim4_fromNapi_partial_objects_degrade_gracefully :
    (∀ (f : ParsedField) (obj : List (String × NapiVal)),
       jsGet f.name obj = none → runFromLine f obj = .ok (defaultForField f)) ∧
    (∀ (f : ParsedField) (obj : List (String × NapiVal)) (v : NapiVal),
       f.isArray = true → jsGet f.name obj = some v → isNArrB v = false →
       runFromLine f obj = .ok (defaultForField f)) ∧
    (∀ (s : ParsedStruct) (obj : List (String × NapiVal)),
       (∀ f ∈ s.fields, fieldCastOk f obj = true) →
       ∃ r, fromNapiStruct s obj = .ok r ∧ r.length = s.fields.length ∧
         ∀ (i : Nat) (hi : i < s.fields.length) (hr : i < r.length),
           jsGet (s.fields.get ⟨i, hi⟩).name obj = none →
           r.get ⟨i, hr⟩ = (sanitizeFieldName (s.fields.get ⟨i, hi⟩).name,
                            defaultForField (s.fields.get ⟨i, hi⟩))) := by
  refine ⟨runFromLine_absent, ?_, ?_⟩
  · intro f obj v hA hsome hnotarr
    cases v <;> simp_all [runFromLine, fromLineOf, isNArrB]
  · intro s obj h
    have hall : ∀ f ∈ s.fields,
        ∃ p, (runFromLine f obj).map (fun v => (sanitizeFieldName f.name, v)) = .ok p := by
      intro f hf
      have hc := h f hf
      unfold fieldCastOk at hc
      cases hr : runFromLine f obj with
      | error e => rw [hr] at hc; cases hc
      | ok v => exact ⟨(sanitizeFieldName f.name, v), by simp [hr, Except.map]⟩
    obtain ⟨r, hrEq⟩ := exceptMapList_ok_of_all _ s.fields hall
    obtain ⟨hlen, hget⟩ := exceptMapList_ok_get _ s.fields r hrEq
    refine ⟨r, hrEq, hlen, ?_⟩
    intro i hi hr habs
    have hg := hget i hi hr
    rw [runFromLine_absent _ _ habs] at hg
    simp only [Except.map, Except.ok.injEq] at hg
    exact hg.symm

/-- Claim C4, witness: the `LongTask` schema against a boundary object
holding only `data`. -/
theorem claim4_witness :
    (∀ f ∈ longTaskSchema.fields, fieldCastOk f partialLongTaskObj = true) ∧
    (∃ r, fromNapiStruct longTaskSchema partialLongTaskObj = .ok r ∧
       r.length = longTaskSchema.fields.length ∧
       ∀ (i : Nat) (hi : i < longTaskSchema.fields.length) (hr : i < r.length),
         jsGet (longTaskSchema.fields.get ⟨i, hi⟩).name partialLongTaskObj = none →
         r.get ⟨i, hr⟩ = (sanitizeFieldName (longTaskSchema.fields.get ⟨i, hi⟩).name,
                          defaultForField (longTaskSchema.fields.get ⟨i, hi⟩))) :=
  ⟨by decide,
   claim4_fromNapi_partial_objects_degrade_gracefully.2.2 longTaskSchema
     partialLongTaskObj (by decide)⟩

/-- Claim C5, counterexample. The claim states that any failure thrown during
deserialization or by the external function is converted into a boundary-level
error and never escapes the wrapper uncaught. The emitted wrapper contains no
`try`/`catch`: with a throwing external implementation and a well-formed
object argument, the failure escapes the wrapper as an uncaught native
exception. -/
theorem claim5_counterexample :
    isUncaughtEscape
      (runSyncWrapper longTaskSchema longTaskSchema boomCall [JsArg.objArg []]) = true := rfl

/-- Claim C5 (amended): the emitted synchronous wrapper first validates that
argument 0 exists and is an object (raising a boundary `TypeError` and
returning null otherwise), then deserializes via `FromNapi`, invokes the
external function and serializes the result via `ToNapi`; but it contains no
exception handling, so a failure thrown during deserialization or by the
external function propagates out of the wrapper uncaught. -/
theorem claim5_sync_wrapper_behaviour (paramS returnS : ParsedStruct)
    (extCall : List (String × CVal) → Except String (List (String × CVal)))
    (rest : List JsArg) (obj : List (String × NapiVal))
    (input result : List (String × CVal)) (msg : String) :
    runSyncWrapper paramS returnS extCall [] =
      .thrownTypeErrorNull "Expected an object" ∧
    runSyncWrapper paramS returnS extCall (JsArg.otherArg :: rest) =
      .thrownTypeErrorNull "Expected an object" ∧
    (fromNapiStruct paramS obj = .ok input → extCall input = .ok result →
      runSyncWrapper paramS returnS extCall (JsArg.objArg obj :: rest) =
        .returned (toNapiStruct returnS result)) ∧
    (fromNapiStruct paramS obj = .error msg →
      runSyncWrapper paramS returnS extCall (JsArg.objArg obj :: rest) =
        .uncaughtNative msg) ∧
    (fromNapiStruct paramS obj = .ok input → extCall input = .error msg →
      runSyncWrapper paramS returnS extCall (JsArg.objArg obj :: rest) =
        .uncaughtNative msg) := by
  refine ⟨rfl, rfl, ?_, ?_, ?_⟩
  · intro h1 h2; simp [runSyncWrapper, h1, h2]
  · intro h1; simp [runSyncWrapper, h1]
  · intro h1 h2; simp [runSyncWrapper, h1, h2]

/-- Claim C5, witness: the happy path on `LongTask` with an identity external
implementation and a partial object. -/
theorem claim5_witness :
    fromNapiStruct longTaskSchema partialLongTaskObj =
      .ok [("duration", CVal.vDouble 0), ("data", CVal.vStr "x")] ∧
    runSyncWrapper longTaskSchema longTaskSchema okCall
        [JsArg.objArg partialLongTaskObj] =
      .returned (toNapiStruct longTaskSchema
        [("duration", CVal.vDouble 0), ("data", CVal.vStr "x")]) :=
  ⟨rfl,
   (claim5_sync_wrapper_behaviour longTaskSchema longTaskSchema okCall []
     partialLongTaskObj [("duration", CVal.vDouble 0), ("data", CVal.vStr "x")]
     [("duration", CVal.vDouble 0), ("data", CVal.vStr "x")] "").2.2.1 rfl rfl⟩

/-- Claim C6. `sanitizeFieldName` appends exactly one trailing underscore to
reserved names and is the identity otherwise; within one struct emission the
header declaration, the `FromNapi` assignment target and the `ToNapi` read
all use that same sanitized identifier. -/
theorem claim6_sanitize_consistent_at_all_sites (f : ParsedField) (name : String) :
    (isReservedCppKeyword name = true → sanitizeFieldName name = name ++ "_") ∧
    (isReservedCppKeyword name = false → sanitizeFieldName name = name) ∧
    (headerFieldLine f).ident = sanitizeFieldName f.name ∧
    (fromLineOf f).target = sanitizeFieldName f.name ∧
    (toLineOf f).readIdent = sanitizeFieldName f.name := by
  refine ⟨fun h => ?_, fun h => ?_, rfl, rfl, rfl⟩
  · simp [sanitizeFieldName, h]
  · simp [sanitizeFieldName, h]

/-- Claim C6, witness: the reserved field name `class`. -/
theorem claim6_witness :
    isReservedCppKeyword "class" = true ∧
    sanitizeFieldName "class" = "class_" ∧
    (fromLineOf reservedSampleField).target = "class_" := by
  have h1 : isReservedCppKeyword "class" = true := by decide
  have h2 := (claim6_sanitize_consistent_at_all_sites reservedSampleField "class").1 h1
  have h3 := (claim6_sanitize_consistent_at_all_sites reservedSampleField "class").2.2.2.1
  exact ⟨h1, h2, by rw [h3]; exact h2⟩

/-- Claim C7, counterexample. The claim states that an already-existing
hand-editable implementation stub is skipped "with a diagnostic". A
generation run over a file system that already holds `implementation.cpp`
leaves the file untouched, but it emits no skip diagnostic at all — the
generator has no stub handling: it writes exactly the five machine-owned
files, on every run, and nothing else. -/
theorem claim7_counterexample :
    generateSkipDiagnostics examplePR stubFileSys = [] ∧
    jsGet "implementation.cpp" (runGenerate examplePR sampleTemplates stubFileSys) =
      some "// user implementation" ∧
    writtenNames examplePR sampleTemplates =
      ["generated_structs.hpp", "generated_structs.cpp", "generated_api.cpp",
       "generated_addon.d.ts", "generated_api.ts"] := by
  exact ⟨rfl, rfl, rfl⟩

/-- Claim C7 (amended): emission is a pure function of the parse result and
the template contents — regenerating over the output of a previous run
rewrites every machine-owned file with byte-identical content, and any path
outside the five machine-owned outputs (in particular a hand-written
implementation file) is never touched; no skip diagnostic is ever emitted
because no stub handling exists. -/
theorem claim7_regeneration_idempotent_and_stub_untouched
    (pr : ParseResult) (ts : Templates) (fs : FileSys) (p : String) :
    jsGet p (runGenerate pr ts (runGenerate pr ts fs)) =
      jsGet p (runGenerate pr ts fs) ∧
    (p ∉ writtenNames pr ts → jsGet p (runGenerate pr ts fs) = jsGet p fs) ∧
    generateSkipDiagnostics pr fs = [] := by
  refine ⟨?_, ?_, rfl⟩
  · show jsGet p (applyWrites (generatedWrites pr ts)
        (applyWrites (generatedWrites pr ts) fs)) =
      jsGet p (applyWrites (generatedWrites pr ts) fs)
    rw [applyWrites_lookup (generatedWrites pr ts)
        (applyWrites (generatedWrites pr ts) fs) p,
      applyWrites_lookup (generatedWrites pr ts) fs p]
    cases h : writeLookup p (generatedWrites pr ts) <;> simp [h]
  · intro hp
    show jsGet p (applyWrites (generatedWrites pr ts) fs) = jsGet p fs
    rw [applyWrites_lookup, writeLookup_none p _ hp]

/-- Claim C7, witness: the example schema over a file system holding a
hand-written `implementation.cpp`. -/
theorem claim7_witness :
    ("implementation.cpp" ∉ writtenNames examplePR sampleTemplates) ∧
    jsGet "implementation.cpp"
        (runGenerate examplePR sampleTemplates stubFileSys) =
      jsGet "implementation.cpp" stubFileSys :=
  ⟨by decide,
   (claim7_regeneration_idempotent_and_stub_untouched examplePR sampleTemplates
     stubFileSys "implementation.cpp").2.1 (by decide)⟩

/-- Claim C8. The boundary-call name computed by `parseExportMethod` is
`OwningClass_methodName` for static methods and the bare method name for
non-static methods, with the class and method names carried through
unchanged. -/
theorem claim8_boundary_name_static_prefix (method : MethodDecl) (className : String) :
    (parseExportMethod method className).name =
      (if method.isStatic then className ++ "_" ++ method.methodName
       else method.methodName) ∧
    (parseExportMethod method className).className = className ∧
    (parseExportMethod method className).methodName = method.methodName ∧
    (parseExportMethod method className).isStatic = method.isStatic :=
  ⟨rfl, rfl, rfl, rfl⟩

/-- Claim C9. Reserved-word detection lower-cases the name before comparing,
so it is insensitive to the case of its argument, and mixed-case names such
as `Class` and `INT` are renamed with a trailing underscore. -/
theorem claim9_reserved_check_case_insensitive :
    (∀ x : String, isReservedCppKeyword x = isReservedCppKeyword (toLowerCaseStr x)) ∧
    sanitizeFieldName "Class" = "Class_" ∧
    sanitizeFieldName "INT" = "INT_" := by
  refine ⟨fun x => ?_, by decide, by decide⟩
  unfold isReservedCppKeyword
  rw [toLowerCaseStr_idem]

/-- Claim C10. A non-static export of a named class is declared in the addon
exports interface and registered as a bridge entry point, but the facade
grouping admits only static exports with a class name or exports without a
class name, so it appears in no facade class and as no free function. -/
theorem claim10_non_static_class_export_absent_from_facade
    (exports : List ParsedExport) (e : ParsedExport)
    (he : e ∈ exports) (hc : e.className ≠ "") (hs : e.isStatic = false) :
    e.name ∈ addonExportNames exports ∧
    e.name ∈ exportRegistrationNames exports ∧
    (∀ g ∈ classMethodsOf exports, e ∉ g.2) ∧
    e ∉ freeFunctionsOf exports := by
  have hinv := groupExports_inv exports ([], [])
    (by intro g hg; simp at hg) (by intro x hx; simp at hx)
  refine ⟨List.mem_map.mpr ⟨e, he, rfl⟩, List.mem_map.mpr ⟨e, he, rfl⟩, ?_, ?_⟩
  · intro g hg hx
    have hst := hinv.1 g hg e hx
    rw [hs] at hst
    cases hst
  · intro hx
    exact hc (hinv.2 e hx)

/-- Claim C10, witness: a concrete non-static export of class `Clock`. -/
theorem claim10_witness :
    nonStaticSampleExport.name ∈ addonExportNames [nonStaticSampleExport] ∧
    nonStaticSampleExport.name ∈ exportRegistrationNames [nonStaticSampleExport] ∧
    (∀ g ∈ classMethodsOf [nonStaticSampleExport], nonStaticSampleExport ∉ g.2) ∧
    nonStaticSampleExport ∉ freeFunctionsOf [nonStaticSampleExport] :=
  claim10_non_static_class_export_absent_from_facade
    [nonStaticSampleExport] nonStaticSampleExport
    (by decide) (by decide) (by decide)

end TsCppBridge
